import Mathlib

/-!
Verification of `llm_models.py`, a CLI tool that lists LLM models from
several providers (OpenAI, Anthropic, xAI, GoogleAI, VertexAI).

The script is embedded shallowly: the process is modelled as a pure
function from the parsed CLI arguments (`Args`), the process environment
(`Env`, covering both environment variables and importability of the
optional SDK packages), and the external world (`World`, giving the
outcome of each potential network interaction) to a trace of events
(stdout lines, stderr lines, client constructions, network calls) plus a
process exit code.
-/

namespace LlmModels

/-- The `--provider` choices accepted by the argument parser. -/
inductive Provider where
  | OpenAI
  | Anthropic
  | xAI
  | GoogleAI
  | VertexAI
deriving DecidableEq, Repr

/-- Parsed CLI arguments: `--provider` is required (argparse `choices`),
`--region` is optional at parse time. -/
structure Args where
  provider : Provider
  region : Option String
deriving DecidableEq, Repr

/-- The process environment: the environment variables the script reads
(`none` = unset) and whether each optional SDK package is importable. -/
structure Env where
  openai_api_key : Option String
  google_api_key : Option String
  google_cloud_project : Option String
  anthropic_api_key : Option String
  xai_api_key : Option String
  openai_importable : Bool
  genai_importable : Bool
  anthropic_importable : Bool
deriving DecidableEq, Repr

/-- A model descriptor returned by the Google `models.list` call.
`hasattr(model, 'supported_generation_methods')` being false is collapsed
to the empty method list, which the script treats identically
(`methods = []`, and `if methods:` suppresses the extra line). -/
structure GoogleModel where
  name : String
  supported_generation_methods : List String
deriving DecidableEq, Repr

/-- The external world: the outcome of each network interaction the script
may attempt. `Except.error e` means the call raises an exception whose
string form is `e`. `geminiProbe n = none` means
`generate_content(model := n, ...)` succeeds; `some e` means it raises `e`. -/
structure World where
  openaiList : Except String (List String)
  googleList : Except String (List GoogleModel)
  xaiList : Except String (List String)
  geminiProbe : String → Option String

/-- Observable events of one process run, in order. -/
inductive Event where
  | out (line : String)
  | err (line : String)
  | construct
  | listCall
  | probeCall (name : String)
deriving DecidableEq, Repr

/-- The `"=" * 80` separator the script prints under each header. -/
def sep80 : String := String.mk (List.replicate 80 '=')

/-- `leadsWith p l` : `p` is an initial segment of `l` (Boolean). -/
def leadsWith : List Char → List Char → Bool
  | [], _ => true
  | _ :: _, [] => false
  | a :: p, b :: l => a = b && leadsWith p l

/-- `hasSub n l` : `n` occurs as a contiguous sublist of `l` (Boolean). -/
def hasSub (n : List Char) : List Char → Bool
  | [] => leadsWith n []
  | b :: l => leadsWith n (b :: l) || hasSub n l

/-- Python's `needle in hay` substring test. -/
def strContains (hay needle : String) : Bool :=
  hasSub needle.toList hay.toList

/-- Python's `s.startswith(p)`, as a prefix test on code points. -/
def pyStartsWith (s p : String) : Bool := leadsWith p.toList s.toList

/-- Python's `s[:n]` slice (code-point prefix). -/
def pyTake (s : String) (n : Nat) : String := String.mk (s.toList.take n)

/-- Python's `s.lower()`, restricted to the ASCII case mappings
(`Char.toLower`); non-ASCII characters are left unchanged. The script
lowercases only provider error messages before searching for the ASCII
needle `"not found"`. -/
def pyToLower (s : String) : String := String.mk (s.toList.map Char.toLower)

/-- Python's emptiness test on a string (`not s` for `str`). -/
def pyIsEmpty (s : String) : Bool := s.toList.isEmpty

/-- One character of the `[a-z]` regex class. -/
def isLowerAlpha (c : Char) : Bool := 'a' ≤ c && c ≤ 'z'

/-- The inclusive code-point ranges of the Unicode `Nd` (decimal digit)
category (Unicode 14.0, as shipped with CPython 3.11): the characters
matched by Python's `\d` in a `str` pattern. -/
def ndRanges : List (Nat × Nat) :=
  [(0x30, 0x39), (0x660, 0x669), (0x6f0, 0x6f9), (0x7c0, 0x7c9),
   (0x966, 0x96f), (0x9e6, 0x9ef), (0xa66, 0xa6f), (0xae6, 0xaef),
   (0xb66, 0xb6f), (0xbe6, 0xbef), (0xc66, 0xc6f), (0xce6, 0xcef),
   (0xd66, 0xd6f), (0xde6, 0xdef), (0xe50, 0xe59), (0xed0, 0xed9),
   (0xf20, 0xf29), (0x1040, 0x1049), (0x1090, 0x1099), (0x17e0, 0x17e9),
   (0x1810, 0x1819), (0x1946, 0x194f), (0x19d0, 0x19d9), (0x1a80, 0x1a89),
   (0x1a90, 0x1a99), (0x1b50, 0x1b59), (0x1bb0, 0x1bb9), (0x1c40, 0x1c49),
   (0x1c50, 0x1c59), (0xa620, 0xa629), (0xa8d0, 0xa8d9), (0xa900, 0xa909),
   (0xa9d0, 0xa9d9), (0xa9f0, 0xa9f9), (0xaa50, 0xaa59), (0xabf0, 0xabf9),
   (0xff10, 0xff19), (0x104a0, 0x104a9), (0x10d30, 0x10d39),
   (0x11066, 0x1106f), (0x110f0, 0x110f9), (0x11136, 0x1113f),
   (0x111d0, 0x111d9), (0x112f0, 0x112f9), (0x11450, 0x11459),
   (0x114d0, 0x114d9), (0x11650, 0x11659), (0x116c0, 0x116c9),
   (0x11730, 0x11739), (0x118e0, 0x118e9), (0x11950, 0x11959),
   (0x11c50, 0x11c59), (0x11d50, 0x11d59), (0x11da0, 0x11da9),
   (0x16a60, 0x16a69), (0x16ac0, 0x16ac9), (0x16b50, 0x16b59),
   (0x1d7ce, 0x1d7ff), (0x1e140, 0x1e149), (0x1e2f0, 0x1e2f9),
   (0x1e950, 0x1e959), (0x1fbf0, 0x1fbf9)]

/-- Python's `\d` character class on `str` patterns: any Unicode decimal
digit (category `Nd`). -/
def isPyDigit (c : Char) : Bool :=
  ndRanges.any (fun r => r.1 ≤ c.toNat && c.toNat ≤ r.2)

/-- The body of the regex `[a-z]+-[a-z]+\d+` matched against a whole
character sequence. Because `[a-z]` is disjoint from `-` and from the `Nd`
digits, the greedy runs are forced: the first lowercase run must end at
the unique `-`, the second at the digit tail, so no backtracking arises. -/
def regionCore (cs : List Char) : Bool :=
  match cs.dropWhile isLowerAlpha with
  | '-' :: rest =>
      decide (cs.takeWhile isLowerAlpha ≠ []) &&
      decide (rest.takeWhile isLowerAlpha ≠ []) &&
      decide (rest.dropWhile isLowerAlpha ≠ []) &&
      (rest.dropWhile isLowerAlpha).all isPyDigit
  | _ => false

/-- `re.match(r'^[a-z]+-[a-z]+\d+$', s)` as a Boolean predicate, with
Python's `$` semantics: it matches at the end of the string or just
before a single newline at the end of the string. -/
def regionMatch (s : String) : Bool :=
  let cs := s.toList
  regionCore cs ||
    (match cs.getLast? with
     | some '\n' => regionCore cs.dropLast
     | _ => false)

/-- Python truthiness of an optional string, as in `if not api_key` or
`if not args.region`: falsy when the variable is absent (`None`) or the
empty string. -/
def pyFalsy : Option String → Bool
  | none => true
  | some s => pyIsEmpty s

/-- Computable lexicographic comparison of code-point sequences: Python's
`<=` on strings, used by `sorted`. Proven equivalent to Mathlib's `≤` on
`String` in `strLe_iff`. -/
def lexLe : List Char → List Char → Bool
  | [], _ => true
  | _ :: _, [] => false
  | a :: as, b :: bs => if a < b then true else if b < a then false else lexLe as bs

/-- The sorting relation of `sorted(main_models, key=lambda x: x.id)`:
lexicographic `≤` on identifiers. -/
def strLe (a b : String) : Prop := lexLe a.toList b.toList = true

instance : DecidableRel strLe :=
  fun a b => instDecidableEqBool (lexLe a.toList b.toList) true

/-- Python `repr` of a plain string (single quotes). -/
def pyStrRepr (s : String) : String := "\x27" ++ s ++ "\x27"

/-- Python `repr` of a list of plain strings, as an f-string prints it. -/
def pyListRepr (l : List String) : String :=
  "[" ++ String.intercalate ", " (l.map pyStrRepr) ++ "]"

/-- `list_openai_models()`: import check, credential check, client
construction + one listing call; on success prints the non-fine-tuned
identifiers sorted by id; on exception prints the error and exits 1.
Python's `sorted` (a stable sort by a linear key) is rendered as
`List.insertionSort`, which is also stable. -/
def list_openai_models (env : Env) (w : World) : List Event × Nat :=
  if env.openai_importable = false then
    ([.out "Error: openai package not installed. Install with: pip install openai"], 1)
  else
    if pyFalsy env.openai_api_key then
      ([.out "Error: OPENAI_API_KEY not set"], 1)
    else
      let hdr : List Event :=
        [.out "Listing available OpenAI models...", .out sep80, .construct, .listCall]
      match w.openaiList with
      | .error e => (hdr ++ [.out ("Error listing models: " ++ e)], 1)
      | .ok ids =>
        let main_models := ids.filter (fun i => !(pyStartsWith i "ft:"))
        let sorted := List.insertionSort strLe main_models
        (hdr ++ sorted.map (fun i => .out ("Model: " ++ i)), 0)


/-- The fixed candidate list of `_try_known_gemini_models`. -/
def test_models : List String :=
  ["gemini-3.0-pro",
   "gemini-2.5-pro",
   "gemini-2.0-flash-exp",
   "gemini-1.5-pro",
   "gemini-1.5-flash"]

/-- One iteration of the probing loop in `_try_known_gemini_models`:
a `generate_content` call, then exactly one label line. -/
def probeOne (w : World) (model_name : String) : List Event :=
  Event.probeCall model_name ::
    match w.geminiProbe model_name with
    | none => [.out ("✓ " ++ model_name ++ " - WORKS")]
    | some e =>
      if strContains e "404" || strContains (pyToLower e) "not found" then
        [.out ("✗ " ++ model_name ++ " - NOT FOUND")]
      else
        [.out ("? " ++ model_name ++ " - Error: " ++ pyTake e 100)]

/-- `_try_known_gemini_models(client)`: header then the probing loop.
`print("\nTrying...")` emits an empty line followed by the text. -/
def try_known_gemini_models (w : World) : List Event :=
  [.out "", .out "Trying alternative approach..."] ++
    (test_models.map (probeOne w)).flatten

/-- The per-model output of the Google listing success path: a `Model:`
line, plus a `Supported methods:` line when the method list is non-empty. -/
def printGoogleModel (m : GoogleModel) : List Event :=
  Event.out ("Model: " ++ m.name) ::
    if m.supported_generation_methods.isEmpty then []
    else [.out ("  Supported methods: " ++ pyListRepr m.supported_generation_methods)]

/-- `list_googleai_models()`: import check, credential check, client
construction, header, one listing call; on success print each model, on
exception print the error and fall through to the known-model probing.
Both listing outcomes end with exit code 0. -/
def list_googleai_models (env : Env) (w : World) : List Event × Nat :=
  if env.genai_importable = false then
    ([.out "Error: google-genai package not installed. Install with: pip install google-genai"], 1)
  else
    if pyFalsy env.google_api_key then
      ([.out "Error: GOOGLE_API_KEY not set"], 1)
    else
      let pre : List Event :=
        [.construct,
         .out "Listing available Google AI Studio models (auto-routed region)...",
         .out sep80, .listCall]
      match w.googleList with
      | .ok models => (pre ++ (models.map printGoogleModel).flatten, 0)
      | .error e =>
        (pre ++ [.out ("Error listing models: " ++ e)] ++ try_known_gemini_models w, 0)

/-- `list_vertexai_models()`; `region` is the validated `args.region`. -/
def list_vertexai_models (env : Env) (w : World) (region : String) :
    List Event × Nat :=
  if env.genai_importable = false then
    ([.out "Error: google-genai package not installed. Install with: pip install google-genai"], 1)
  else
    if pyFalsy env.google_cloud_project then
      ([.out "Error: GOOGLE_CLOUD_PROJECT not set (required for Vertex AI)"], 1)
    else
      let project := env.google_cloud_project.getD ""
      let pre : List Event :=
        [.construct,
         .out ("Listing available Vertex AI models (project: " ++ project ++
               ", region: " ++ region ++ ")..."),
         .out sep80, .listCall]
      match w.googleList with
      | .ok models => (pre ++ (models.map printGoogleModel).flatten, 0)
      | .error e =>
        (pre ++ [.out ("Error listing models: " ++ e)] ++ try_known_gemini_models w, 0)

/-- The hard-coded `known_models` list of `list_anthropic_models`. -/
def known_models : List String :=
  ["claude-3-5-sonnet-20241022",
   "claude-3-5-sonnet-20240620",
   "claude-3-opus-20240229",
   "claude-3-sonnet-20240229",
   "claude-3-haiku-20240307",
   "claude-2.1",
   "claude-2.0"]

/-- `list_anthropic_models()`: import check, credential check, then a
purely static listing — no client construction, no network call. -/
def list_anthropic_models (env : Env) : List Event × Nat :=
  if env.anthropic_importable = false then
    ([.out "Error: anthropic package not installed. Install with: pip install anthropic"], 1)
  else
    if pyFalsy env.anthropic_api_key then
      ([.out "Error: ANTHROPIC_API_KEY not set"], 1)
    else
      ([.out "Listing available Anthropic models...", .out sep80,
        .out "Known Anthropic Claude models:"] ++
       known_models.map (fun m => .out ("Model: " ++ m)) ++
       [.out "", .out "Note: Anthropic does not provide a models API endpoint.",
        .out "This is a list of known models. Check https://docs.anthropic.com/en/docs/models-overview for the latest."],
       0)

/-- `list_xai_models()`: uses the openai package; on a listing exception it
prints the static known-model fallback and still exits 0. -/
def list_xai_models (env : Env) (w : World) : List Event × Nat :=
  if env.openai_importable = false then
    ([.out "Error: openai package not installed (xAI uses OpenAI-compatible API). Install with: pip install openai"], 1)
  else
    if pyFalsy env.xai_api_key then
      ([.out "Error: XAI_API_KEY not set"], 1)
    else
      let hdr : List Event :=
        [.out "Listing available xAI models (NOTE: xAI uses aliases, so grok-4 is an acceptable API name, resolving to grok-4-0709 as of Nov. 2025)...",
         .out sep80, .construct, .listCall]
      match w.xaiList with
      | .ok ids => (hdr ++ ids.map (fun i => .out ("Model: " ++ i)), 0)
      | .error e =>
        (hdr ++
         [.out ("Error listing models: " ++ e),
          .out "", .out "Known xAI models:",
          .out "Model: grok-beta",
          .out "Model: grok-vision-beta",
          .out "", .out "Note: Check https://docs.x.ai/docs for the latest model information."],
         0)

/-- The `parser.error(...)` message for a missing `--region`. -/
def regionRequiredMsg : String :=
  "llm_models.py: error: --region is required when provider is VertexAI"

/-- argparse usage line printed by `parser.error` (prog taken from
`sys.argv[0]` = `llm_models.py`). -/
def usageLine : String :=
  "usage: llm_models.py [-h] --provider \x7bOpenAI,Anthropic,xAI,GoogleAI,VertexAI\x7d [--region REGION]"

/-- The lines printed when the region fails the format regex. -/
def invalidRegionLines (region : String) : List String :=
  ["Error: Invalid region format " ++ pyStrRepr region,
   "Expected format: <continent>-<location><number> (e.g., \x27us-central1\x27, \x27europe-west4\x27)",
   "", "Common Vertex AI regions:",
   "  us-central1, us-east4, us-west1",
   "  europe-west1, europe-west4",
   "  asia-northeast1, asia-southeast1",
   "", "See: https://cloud.google.com/vertex-ai/docs/general/locations"]

/-- The whole script run on parsed arguments: the module-level VertexAI
region validation (argparse `parser.error` exits with status 2; the regex
failure path prints to stdout and exits 1), then the provider dispatch. -/
def runProgram (args : Args) (env : Env) (w : World) : List Event × Nat :=
  if args.provider = Provider.VertexAI ∧ pyFalsy args.region = true then
    ([.err usageLine, .err regionRequiredMsg], 2)
  else if args.provider = Provider.VertexAI ∧
      regionMatch (args.region.getD "") = false then
    ((invalidRegionLines (args.region.getD "")).map .out, 1)
  else
    match args.provider with
    | .OpenAI => list_openai_models env w
    | .GoogleAI => list_googleai_models env w
    | .VertexAI => list_vertexai_models env w (args.region.getD "")
    | .Anthropic => list_anthropic_models env
    | .xAI => list_xai_models env w

/-- Spec-side exit-code mapping, written from the spec's words (§6/§7, as
amended): 0 on success; 1 on any validation failure (malformed region),
missing dependency, missing credential, or unrecoverable retrieval error
occurring after argument parsing; 2 for argparse parser errors (missing or
empty `--region` in VertexAI mode). Per the spec, the Google probing
fallback and the xAI static fallback are a degrade-gracefully policy, not
an error, so a failed Google/xAI listing still counts as success, while a
failed OpenAI listing is an unrecoverable retrieval error. This definition
is compared against the code-derived `runProgram` in the C3 theorem. -/
def specExitCode (args : Args) (env : Env) (w : World) : Nat :=
  if args.provider = Provider.VertexAI ∧ pyFalsy args.region = true then 2
  else if args.provider = Provider.VertexAI ∧
      regionMatch (args.region.getD "") = false then 1
  else
    match args.provider with
    | .OpenAI =>
      if env.openai_importable = false then 1
      else if pyFalsy env.openai_api_key then 1
      else match w.openaiList with | .error _ => 1 | .ok _ => 0
    | .GoogleAI =>
      if env.genai_importable = false then 1
      else if pyFalsy env.google_api_key then 1
      else 0
    | .VertexAI =>
      if env.genai_importable = false then 1
      else if pyFalsy env.google_cloud_project then 1
      else 0
    | .Anthropic =>
      if env.anthropic_importable = false then 1
      else if pyFalsy env.anthropic_api_key then 1
      else 0
    | .xAI =>
      if env.openai_importable = false then 1
      else if pyFalsy env.xai_api_key then 1
      else 0

/-- The stdout lines of a trace, in order. -/
def outLines (t : List Event) : List String :=
  t.filterMap fun e => match e with | .out s => some s | _ => none

/-- The stderr lines of a trace, in order. -/
def errLines (t : List Event) : List String :=
  t.filterMap fun e => match e with | .err s => some s | _ => none

/-- Number of network calls (listing calls and probe calls) in a trace. -/
def netCalls (t : List Event) : Nat :=
  t.countP fun e => match e with
    | .listCall => true
    | .probeCall _ => true
    | _ => false

/-- Number of provider listing calls in a trace. -/
def listingCalls (t : List Event) : Nat :=
  t.countP fun e => match e with | .listCall => true | _ => false

/-- Number of fallback probe calls in a trace. -/
def probeCalls (t : List Event) : Nat :=
  t.countP fun e => match e with | .probeCall _ => true | _ => false

/-- Number of provider client constructions in a trace. -/
def constructs (t : List Event) : Nat :=
  t.countP fun e => match e with | .construct => true | _ => false

/-! ### Concrete inputs used to instantiate the theorems -/

/-- An environment with every credential set and every package importable. -/
def envStd : Env :=
  ⟨some "sk-openai", some "sk-google", some "proj-1", some "sk-anthropic",
   some "sk-xai", true, true, true⟩

/-- Environment with the openai package importable but `OPENAI_API_KEY` unset. -/
def envNoOpenAIKey : Env :=
  ⟨none, some "sk-google", some "proj-1", some "sk-anthropic",
   some "sk-xai", true, true, true⟩

/-- Environment with the anthropic package importable but `ANTHROPIC_API_KEY` unset. -/
def envNoAnthropicKey : Env :=
  ⟨some "sk-openai", some "sk-google", some "proj-1", none,
   some "sk-xai", true, true, true⟩

/-- A world where every listing call succeeds with an empty catalog. -/
def wStd : World := ⟨.ok [], .ok [], .ok [], fun _ => none⟩

/-- A world with a concrete OpenAI listing response. -/
def wC1 : World :=
  ⟨.ok ["gpt-4", "ft:gpt-4:custom", "gpt-3.5"], .ok [], .ok [], fun _ => none⟩

/-- A world where the Google listing call raises and the probes exercise
all three label shapes. -/
def wGFail : World :=
  ⟨.ok [], .error "503 UNAVAILABLE", .ok [],
   fun n =>
     if n = "gemini-1.5-pro" then none
     else if n = "gemini-2.5-pro" then some "404 no such model"
     else if n = "gemini-1.5-flash" then some "Model Not Found here"
     else some "quota exceeded"⟩

/-- A world with a concrete unsorted xAI listing response that includes a
fine-tune-marked identifier. -/
def wC9 : World :=
  ⟨.ok [], .ok [], .ok ["grok-beta", "ft:custom", "grok-2", "aardvark"],
   fun _ => none⟩

/-! ### Properties of the lexicographic comparison -/

theorem lexLe_iff_not_lex :
    ∀ x y : List Char, lexLe x y = true ↔ ¬ List.Lex (· < ·) y x
  | [], [] => by
    simp only [lexLe, true_iff]
    intro h
    cases h
  | [], _ :: _ => by
    simp only [lexLe, true_iff]
    intro h
    cases h
  | _ :: _, [] => by
    simp only [lexLe, Bool.false_eq_true, false_iff, not_not]
    exact List.Lex.nil
  | a :: as, b :: bs => by
    simp only [lexLe]
    rcases lt_trichotomy a b with hab | heq | hba
    · rw [if_pos hab]
      simp only [true_iff]
      intro h
      cases h with
      | cons h' => exact lt_irrefl _ hab
      | rel h' => exact lt_asymm hab h'
    · subst heq
      rw [if_neg (lt_irrefl a), if_neg (lt_irrefl a),
        lexLe_iff_not_lex as bs]
      constructor
      · intro h hl
        cases hl with
        | cons h' => exact h h'
        | rel h' => exact lt_irrefl _ h'
      · intro h hl
        exact h (List.Lex.cons hl)
    · rw [if_neg (lt_asymm hba), if_pos hba]
      simp only [Bool.false_eq_true, false_iff, not_not]
      exact List.Lex.rel hba

/-- `strLe` is exactly Mathlib's lexicographic `≤` on `String`. -/
theorem strLe_iff (a b : String) : strLe a b ↔ a ≤ b := by
  rw [String.le_iff_toList_le, ← not_lt]
  exact lexLe_iff_not_lex a.toList b.toList

instance : IsTotal String strLe :=
  ⟨fun a b => (le_total a b).imp (strLe_iff a b).mpr (strLe_iff b a).mpr⟩

instance : IsTrans String strLe :=
  ⟨fun a b c hab hbc =>
    (strLe_iff a c).mpr (le_trans ((strLe_iff a b).mp hab) ((strLe_iff b c).mp hbc))⟩

/-! ### Trace observation lemmas -/

@[simp] theorem outLines_nil : outLines [] = [] := rfl

@[simp] theorem outLines_cons_out (s : String) (t : List Event) :
    outLines (Event.out s :: t) = s :: outLines t := rfl

@[simp] theorem outLines_cons_err (s : String) (t : List Event) :
    outLines (Event.err s :: t) = outLines t := rfl

@[simp] theorem outLines_cons_construct (t : List Event) :
    outLines (Event.construct :: t) = outLines t := rfl

@[simp] theorem outLines_cons_listCall (t : List Event) :
    outLines (Event.listCall :: t) = outLines t := rfl

@[simp] theorem outLines_cons_probeCall (n : String) (t : List Event) :
    outLines (Event.probeCall n :: t) = outLines t := rfl

@[simp] theorem outLines_append (t₁ t₂ : List Event) :
    outLines (t₁ ++ t₂) = outLines t₁ ++ outLines t₂ :=
  List.filterMap_append ..

@[simp] theorem outLines_outMap (f : α → String) (l : List α) :
    outLines (l.map (fun x => Event.out (f x))) = l.map f := by
  induction l with
  | nil => rfl
  | cons a l ih => simp [ih]

@[simp] theorem errLines_nil : errLines [] = [] := rfl

@[simp] theorem errLines_cons_out (s : String) (t : List Event) :
    errLines (Event.out s :: t) = errLines t := rfl

@[simp] theorem errLines_cons_err (s : String) (t : List Event) :
    errLines (Event.err s :: t) = s :: errLines t := rfl

@[simp] theorem netCalls_nil : netCalls [] = 0 := rfl

@[simp] theorem netCalls_cons_out (s : String) (t : List Event) :
    netCalls (Event.out s :: t) = netCalls t := by
  simp [netCalls, List.countP_cons]

@[simp] theorem netCalls_cons_err (s : String) (t : List Event) :
    netCalls (Event.err s :: t) = netCalls t := by
  simp [netCalls, List.countP_cons]

@[simp] theorem netCalls_cons_construct (t : List Event) :
    netCalls (Event.construct :: t) = netCalls t := by
  simp [netCalls, List.countP_cons]

@[simp] theorem netCalls_cons_listCall (t : List Event) :
    netCalls (Event.listCall :: t) = netCalls t + 1 := by
  simp [netCalls, List.countP_cons]

@[simp] theorem netCalls_cons_probeCall (n : String) (t : List Event) :
    netCalls (Event.probeCall n :: t) = netCalls t + 1 := by
  simp [netCalls, List.countP_cons]

@[simp] theorem netCalls_append (t₁ t₂ : List Event) :
    netCalls (t₁ ++ t₂) = netCalls t₁ + netCalls t₂ := by
  simp [netCalls, List.countP_append]

@[simp] theorem netCalls_outMap (f : α → String) (l : List α) :
    netCalls (l.map (fun x => Event.out (f x))) = 0 := by
  induction l with
  | nil => rfl
  | cons a l ih => simp [ih]

@[simp] theorem listingCalls_nil : listingCalls [] = 0 := rfl

@[simp] theorem listingCalls_cons_out (s : String) (t : List Event) :
    listingCalls (Event.out s :: t) = listingCalls t := by
  simp [listingCalls, List.countP_cons]

@[simp] theorem listingCalls_cons_err (s : String) (t : List Event) :
    listingCalls (Event.err s :: t) = listingCalls t := by
  simp [listingCalls, List.countP_cons]

@[simp] theorem listingCalls_cons_construct (t : List Event) :
    listingCalls (Event.construct :: t) = listingCalls t := by
  simp [listingCalls, List.countP_cons]

@[simp] theorem listingCalls_cons_listCall (t : List Event) :
    listingCalls (Event.listCall :: t) = listingCalls t + 1 := by
  simp [listingCalls, List.countP_cons]

@[simp] theorem listingCalls_cons_probeCall (n : String) (t : List Event) :
    listingCalls (Event.probeCall n :: t) = listingCalls t := by
  simp [listingCalls, List.countP_cons]

@[simp] theorem listingCalls_append (t₁ t₂ : List Event) :
    listingCalls (t₁ ++ t₂) = listingCalls t₁ + listingCalls t₂ := by
  simp [listingCalls, List.countP_append]

@[simp] theorem listingCalls_outMap (f : α → String) (l : List α) :
    listingCalls (l.map (fun x => Event.out (f x))) = 0 := by
  induction l with
  | nil => rfl
  | cons a l ih => simp [ih]

@[simp] theorem probeCalls_nil : probeCalls [] = 0 := rfl

@[simp] theorem probeCalls_cons_out (s : String) (t : List Event) :
    probeCalls (Event.out s :: t) = probeCalls t := by
  simp [probeCalls, List.countP_cons]

@[simp] theorem probeCalls_cons_err (s : String) (t : List Event) :
    probeCalls (Event.err s :: t) = probeCalls t := by
  simp [probeCalls, List.countP_cons]

@[simp] theorem probeCalls_cons_construct (t : List Event) :
    probeCalls (Event.construct :: t) = probeCalls t := by
  simp [probeCalls, List.countP_cons]

@[simp] theorem probeCalls_cons_listCall (t : List Event) :
    probeCalls (Event.listCall :: t) = probeCalls t := by
  simp [probeCalls, List.countP_cons]

@[simp] theorem probeCalls_cons_probeCall (n : String) (t : List Event) :
    probeCalls (Event.probeCall n :: t) = probeCalls t + 1 := by
  simp [probeCalls, List.countP_cons]

@[simp] theorem probeCalls_append (t₁ t₂ : List Event) :
    probeCalls (t₁ ++ t₂) = probeCalls t₁ + probeCalls t₂ := by
  simp [probeCalls, List.countP_append]

@[simp] theorem probeCalls_outMap (f : α → String) (l : List α) :
    probeCalls (l.map (fun x => Event.out (f x))) = 0 := by
  induction l with
  | nil => rfl
  | cons a l ih => simp [ih]

@[simp] theorem constructs_nil : constructs [] = 0 := rfl

@[simp] theorem constructs_cons_out (s : String) (t : List Event) :
    constructs (Event.out s :: t) = constructs t := by
  simp [constructs, List.countP_cons]

@[simp] theorem constructs_cons_err (s : String) (t : List Event) :
    constructs (Event.err s :: t) = constructs t := by
  simp [constructs, List.countP_cons]

@[simp] theorem constructs_cons_construct (t : List Event) :
    constructs (Event.construct :: t) = constructs t + 1 := by
  simp [constructs, List.countP_cons]

@[simp] theorem constructs_append (t₁ t₂ : List Event) :
    constructs (t₁ ++ t₂) = constructs t₁ + constructs t₂ := by
  simp [constructs, List.countP_append]

@[simp] theorem outLines_outMapId (l : List String) :
    outLines (l.map Event.out) = l := by
  induction l with
  | nil => rfl
  | cons a l ih => simp [ih]

@[simp] theorem netCalls_outMapId (l : List String) :
    netCalls (l.map Event.out) = 0 := by
  induction l with
  | nil => rfl
  | cons a l ih => simp [ih]

@[simp] theorem listingCalls_outMapId (l : List String) :
    listingCalls (l.map Event.out) = 0 := by
  induction l with
  | nil => rfl
  | cons a l ih => simp [ih]

@[simp] theorem probeCalls_outMapId (l : List String) :
    probeCalls (l.map Event.out) = 0 := by
  induction l with
  | nil => rfl
  | cons a l ih => simp [ih]

@[simp] theorem constructs_outMapId (l : List String) :
    constructs (l.map Event.out) = 0 := by
  induction l with
  | nil => rfl
  | cons a l ih => simp [ih]

/-! ### Dispatch lemmas -/

theorem runProgram_openai (rg : Option String) (env : Env) (w : World) :
    runProgram ⟨.OpenAI, rg⟩ env w = list_openai_models env w := by
  simp [runProgram]

theorem runProgram_googleai (rg : Option String) (env : Env) (w : World) :
    runProgram ⟨.GoogleAI, rg⟩ env w = list_googleai_models env w := by
  simp [runProgram]

theorem runProgram_anthropic (rg : Option String) (env : Env) (w : World) :
    runProgram ⟨.Anthropic, rg⟩ env w = list_anthropic_models env := by
  simp [runProgram]

theorem runProgram_xai (rg : Option String) (env : Env) (w : World) :
    runProgram ⟨.xAI, rg⟩ env w = list_xai_models env w := by
  simp [runProgram]

theorem runProgram_vertexai (r : String) (env : Env) (w : World)
    (hne : pyIsEmpty r = false) (hm : regionMatch r = true) :
    runProgram ⟨.VertexAI, some r⟩ env w = list_vertexai_models env w r := by
  simp [runProgram, pyFalsy, hne, hm]

/-! ### Exit codes of the provider adapters -/

theorem list_openai_models_code (env : Env) (w : World) :
    (list_openai_models env w).2 = 0 ∨ (list_openai_models env w).2 = 1 := by
  rcases himp : env.openai_importable <;>
    rcases hkey : pyFalsy env.openai_api_key <;>
    rcases hw : w.openaiList with e | ids <;>
    simp [list_openai_models, himp, hkey, hw]

theorem list_googleai_models_code (env : Env) (w : World) :
    (list_googleai_models env w).2 = 0 ∨ (list_googleai_models env w).2 = 1 := by
  rcases himp : env.genai_importable <;>
    rcases hkey : pyFalsy env.google_api_key <;>
    rcases hw : w.googleList with e | models <;>
    simp [list_googleai_models, himp, hkey, hw]

theorem list_vertexai_models_code (env : Env) (w : World) (r : String) :
    (list_vertexai_models env w r).2 = 0 ∨ (list_vertexai_models env w r).2 = 1 := by
  rcases himp : env.genai_importable <;>
    rcases hproj : pyFalsy env.google_cloud_project <;>
    rcases hw : w.googleList with e | models <;>
    simp [list_vertexai_models, himp, hproj, hw]

theorem list_anthropic_models_code (env : Env) :
    (list_anthropic_models env).2 = 0 ∨ (list_anthropic_models env).2 = 1 := by
  rcases himp : env.anthropic_importable <;>
    rcases hkey : pyFalsy env.anthropic_api_key <;>
    simp [list_anthropic_models, himp, hkey]

theorem list_xai_models_code (env : Env) (w : World) :
    (list_xai_models env w).2 = 0 ∨ (list_xai_models env w).2 = 1 := by
  rcases himp : env.openai_importable <;>
    rcases hkey : pyFalsy env.xai_api_key <;>
    rcases hw : w.xaiList with e | ids <;>
    simp [list_xai_models, himp, hkey, hw]

theorem runProgram_code (args : Args) (env : Env) (w : World) :
    (runProgram args env w).2 = 0 ∨ (runProgram args env w).2 = 1 ∨
      (runProgram args env w).2 = 2 := by
  unfold runProgram
  split
  · exact Or.inr (Or.inr rfl)
  · split
    · exact Or.inr (Or.inl rfl)
    · split
      · exact (list_openai_models_code env w).imp id Or.inl
      · exact (list_googleai_models_code env w).imp id Or.inl
      · exact (list_vertexai_models_code env w _).imp id Or.inl
      · exact (list_anthropic_models_code env).imp id Or.inl
      · exact (list_xai_models_code env w).imp id Or.inl

/-! ### Counting lemmas for the adapters -/

@[simp] theorem outLines_probeOne (w : World) (n : String) :
    outLines (probeOne w n) =
      [match w.geminiProbe n with
       | none => "✓ " ++ n ++ " - WORKS"
       | some e =>
         if strContains e "404" || strContains (pyToLower e) "not found" then
           "✗ " ++ n ++ " - NOT FOUND"
         else "? " ++ n ++ " - Error: " ++ pyTake e 100] := by
  rcases h : w.geminiProbe n with _ | e
  · simp [probeOne, h]
  · rcases hc : strContains e "404" || strContains (pyToLower e) "not found" <;>
      simp [probeOne, h, hc]

@[simp] theorem netCalls_probeOne (w : World) (n : String) :
    netCalls (probeOne w n) = 1 := by
  rcases h : w.geminiProbe n with _ | e
  · simp [probeOne, h]
  · rcases hc : strContains e "404" || strContains (pyToLower e) "not found" <;>
      simp [probeOne, h, hc]

@[simp] theorem listingCalls_probeOne (w : World) (n : String) :
    listingCalls (probeOne w n) = 0 := by
  rcases h : w.geminiProbe n with _ | e
  · simp [probeOne, h]
  · rcases hc : strContains e "404" || strContains (pyToLower e) "not found" <;>
      simp [probeOne, h, hc]

@[simp] theorem probeCalls_probeOne (w : World) (n : String) :
    probeCalls (probeOne w n) = 1 := by
  rcases h : w.geminiProbe n with _ | e
  · simp [probeOne, h]
  · rcases hc : strContains e "404" || strContains (pyToLower e) "not found" <;>
      simp [probeOne, h, hc]

@[simp] theorem netCalls_printGoogleModel (m : GoogleModel) :
    netCalls (printGoogleModel m) = 0 := by
  rcases h : m.supported_generation_methods.isEmpty <;>
    simp [printGoogleModel, h]

@[simp] theorem listingCalls_printGoogleModel (m : GoogleModel) :
    listingCalls (printGoogleModel m) = 0 := by
  rcases h : m.supported_generation_methods.isEmpty <;>
    simp [printGoogleModel, h]

@[simp] theorem probeCalls_printGoogleModel (m : GoogleModel) :
    probeCalls (printGoogleModel m) = 0 := by
  rcases h : m.supported_generation_methods.isEmpty <;>
    simp [printGoogleModel, h]

@[simp] theorem netCalls_googleFlatten (models : List GoogleModel) :
    netCalls ((models.map printGoogleModel).flatten) = 0 := by
  induction models with
  | nil => rfl
  | cons m models ih => simp [ih]

@[simp] theorem listingCalls_googleFlatten (models : List GoogleModel) :
    listingCalls ((models.map printGoogleModel).flatten) = 0 := by
  induction models with
  | nil => rfl
  | cons m models ih => simp [ih]

@[simp] theorem probeCalls_googleFlatten (models : List GoogleModel) :
    probeCalls ((models.map printGoogleModel).flatten) = 0 := by
  induction models with
  | nil => rfl
  | cons m models ih => simp [ih]

@[simp] theorem netCalls_try_known (w : World) :
    netCalls (try_known_gemini_models w) = 5 := by
  simp [try_known_gemini_models, test_models]

@[simp] theorem listingCalls_try_known (w : World) :
    listingCalls (try_known_gemini_models w) = 0 := by
  simp [try_known_gemini_models, test_models]

@[simp] theorem probeCalls_try_known (w : World) :
    probeCalls (try_known_gemini_models w) = 5 := by
  simp [try_known_gemini_models, test_models]

theorem list_openai_models_calls (env : Env) (w : World) :
    listingCalls (list_openai_models env w).1 ≤ 1 ∧
    netCalls (list_openai_models env w).1 ≤ 6 ∧
    probeCalls (list_openai_models env w).1 = 0 := by
  rcases himp : env.openai_importable <;>
    rcases hkey : pyFalsy env.openai_api_key <;>
    rcases hw : w.openaiList with e | ids <;>
    simp [list_openai_models, himp, hkey, hw]

theorem list_googleai_models_calls (env : Env) (w : World) :
    listingCalls (list_googleai_models env w).1 ≤ 1 ∧
    netCalls (list_googleai_models env w).1 ≤ 6 := by
  rcases himp : env.genai_importable <;>
    rcases hkey : pyFalsy env.google_api_key <;>
    rcases hw : w.googleList with e | models <;>
    simp [list_googleai_models, himp, hkey, hw]

theorem list_vertexai_models_calls (env : Env) (w : World) (r : String) :
    listingCalls (list_vertexai_models env w r).1 ≤ 1 ∧
    netCalls (list_vertexai_models env w r).1 ≤ 6 := by
  rcases himp : env.genai_importable <;>
    rcases hproj : pyFalsy env.google_cloud_project <;>
    rcases hw : w.googleList with e | models <;>
    simp [list_vertexai_models, himp, hproj, hw]

theorem list_anthropic_models_calls (env : Env) :
    listingCalls (list_anthropic_models env).1 ≤ 1 ∧
    netCalls (list_anthropic_models env).1 ≤ 6 ∧
    probeCalls (list_anthropic_models env).1 = 0 := by
  rcases himp : env.anthropic_importable <;>
    rcases hkey : pyFalsy env.anthropic_api_key <;>
    simp [list_anthropic_models, himp, hkey]

theorem list_xai_models_calls (env : Env) (w : World) :
    listingCalls (list_xai_models env w).1 ≤ 1 ∧
    netCalls (list_xai_models env w).1 ≤ 6 ∧
    probeCalls (list_xai_models env w).1 = 0 := by
  rcases himp : env.openai_importable <;>
    rcases hkey : pyFalsy env.xai_api_key <;>
    rcases hw : w.xaiList with e | ids <;>
    simp [list_xai_models, himp, hkey, hw]

/-! ### The claims -/

/-- C1: for every OpenAI listing response (with the openai package
importable and `OPENAI_API_KEY` Python-truthy), the OpenAI adapter prints
exactly the model identifiers that do not start with the fine-tune marker
`ft:`, sorted lexicographically by identifier (one `Model: <id>` line
each, after the fixed header), and exits 0. Instantiated in the witness at
the listing `["gpt-4", "ft:gpt-4:custom", "gpt-3.5"]`, whose output is
exactly `gpt-3.5` then `gpt-4`. -/
theorem C1_openai_filtered_sorted (rg : Option String) (env : Env) (w : World)
    (ids : List String)
    (himp : env.openai_importable = true)
    (hkey : pyFalsy env.openai_api_key = false)
    (hw : w.openaiList = .ok ids) :
    ∃ l : List String,
      (ids.filter (fun i => !(pyStartsWith i "ft:"))).Perm l ∧
      l.Sorted (· ≤ ·) ∧
      outLines (runProgram ⟨.OpenAI, rg⟩ env w).1 =
        ["Listing available OpenAI models...", sep80] ++
          l.map (fun i => "Model: " ++ i) ∧
      (runProgram ⟨.OpenAI, rg⟩ env w).2 = 0 := by
  refine ⟨List.insertionSort strLe (ids.filter (fun i => !(pyStartsWith i "ft:"))),
    (List.perm_insertionSort strLe _).symm,
    (List.sorted_insertionSort strLe _).imp (fun h => (strLe_iff _ _).mp h),
    ?_, ?_⟩ <;>
  · rw [runProgram_openai]
    simp [list_openai_models, himp, hkey, hw]

/-- Witness for C1 at the listing of the claim. -/
theorem C1_witness :
    (∃ l : List String,
      ((["gpt-4", "ft:gpt-4:custom", "gpt-3.5"] : List String).filter
          (fun i => !(pyStartsWith i "ft:"))).Perm l ∧
      l.Sorted (· ≤ ·) ∧
      outLines (runProgram ⟨.OpenAI, none⟩ envStd wC1).1 =
        ["Listing available OpenAI models...", sep80] ++
          l.map (fun i => "Model: " ++ i) ∧
      (runProgram ⟨.OpenAI, none⟩ envStd wC1).2 = 0) ∧
    outLines (runProgram ⟨.OpenAI, none⟩ envStd wC1).1 =
      ["Listing available OpenAI models...", sep80,
       "Model: gpt-3.5", "Model: gpt-4"] :=
  ⟨C1_openai_filtered_sorted none envStd wC1
      ["gpt-4", "ft:gpt-4:custom", "gpt-3.5"] rfl rfl rfl,
    by decide⟩

/-- C2 counterexample: the empty string is a `--region` argument that does
not match the pattern `<letters>-<letters><digits>`, yet the process does
not exit with code 1: it is caught by the Python-truthiness check
`if not args.region` and exits with the argparse status 2 (region-required
message), not with the format-error path. -/
theorem C2_counterexample :
    regionMatch "" = false ∧
    (runProgram ⟨Provider.VertexAI, some ""⟩ envStd wStd).2 ≠ 1 ∧
    (runProgram ⟨Provider.VertexAI, some ""⟩ envStd wStd).2 = 2 := by
  decide

/-- C2 (amended): for every invocation with `--provider VertexAI` and a
non-empty `--region` argument that does not match
`re.match(r'^[a-z]+-[a-z]+\d+$', ...)` under Python semantics (`$` also
matching before a single trailing newline, `\d` the Unicode decimal
digits), the process exits 1 and prints the format-error message, before
any network call and before any provider client is constructed. -/
theorem C2_invalid_region_rejected (env : Env) (w : World) (r : String)
    (hne : pyIsEmpty r = false) (hm : regionMatch r = false) :
    (runProgram ⟨.VertexAI, some r⟩ env w).2 = 1 ∧
    ("Error: Invalid region format " ++ pyStrRepr r) ∈
      outLines (runProgram ⟨.VertexAI, some r⟩ env w).1 ∧
    netCalls (runProgram ⟨.VertexAI, some r⟩ env w).1 = 0 ∧
    constructs (runProgram ⟨.VertexAI, some r⟩ env w).1 = 0 := by
  simp [runProgram, pyFalsy, hne, hm, invalidRegionLines]

/-- Witness for C2 (amended) at the claim's example region `uscentral1`. -/
theorem C2_witness :
    (runProgram ⟨.VertexAI, some "uscentral1"⟩ envStd wStd).2 = 1 ∧
    ("Error: Invalid region format " ++ pyStrRepr "uscentral1") ∈
      outLines (runProgram ⟨.VertexAI, some "uscentral1"⟩ envStd wStd).1 ∧
    netCalls (runProgram ⟨.VertexAI, some "uscentral1"⟩ envStd wStd).1 = 0 ∧
    constructs (runProgram ⟨.VertexAI, some "uscentral1"⟩ envStd wStd).1 = 0 :=
  C2_invalid_region_rejected envStd wStd "uscentral1" (by decide) (by decide)

/-- C3 counterexample: with `--provider VertexAI` and no `--region` the
process exits with the argparse status 2, not 1 as the claim states. -/
theorem C3_counterexample :
    (runProgram ⟨Provider.VertexAI, none⟩ envStd wStd).2 ≠ 1 ∧
    (runProgram ⟨Provider.VertexAI, none⟩ envStd wStd).2 = 2 := by
  decide

/-- C3 (amended): the exit code of every run equals the spec's mapping
`specExitCode` — 0 on success, 1 on any validation failure, missing
dependency, missing credential or unrecoverable retrieval error occurring
after argument parsing, 2 for argparse parser errors; and in particular
`--provider VertexAI` with a missing (or empty, i.e. Python-falsy)
`--region` exits with the argparse error status 2 together with the
region-required message on stderr. -/
theorem C3_exit_codes (args : Args) (env : Env) (w : World) :
    (runProgram args env w).2 = specExitCode args env w ∧
    (args.provider = Provider.VertexAI → pyFalsy args.region = true →
      (runProgram args env w).2 = 2 ∧
      regionRequiredMsg ∈ errLines (runProgram args env w).1) := by
  constructor
  · obtain ⟨p, rg⟩ := args
    cases p
    case OpenAI =>
      rw [runProgram_openai]
      rcases himp : env.openai_importable <;>
        rcases hkey : pyFalsy env.openai_api_key <;>
        rcases hw : w.openaiList with e | ids <;>
        simp [list_openai_models, specExitCode, himp, hkey, hw]
    case GoogleAI =>
      rw [runProgram_googleai]
      rcases himp : env.genai_importable <;>
        rcases hkey : pyFalsy env.google_api_key <;>
        rcases hw : w.googleList with e | models <;>
        simp [list_googleai_models, specExitCode, himp, hkey, hw]
    case Anthropic =>
      rw [runProgram_anthropic]
      rcases himp : env.anthropic_importable <;>
        rcases hkey : pyFalsy env.anthropic_api_key <;>
        simp [list_anthropic_models, specExitCode, himp, hkey]
    case xAI =>
      rw [runProgram_xai]
      rcases himp : env.openai_importable <;>
        rcases hkey : pyFalsy env.xai_api_key <;>
        rcases hw : w.xaiList with e | ids <;>
        simp [list_xai_models, specExitCode, himp, hkey, hw]
    case VertexAI =>
      rcases hr : pyFalsy rg
      · rcases hm : regionMatch (rg.getD "")
        · simp [runProgram, specExitCode, hr, hm]
        · rcases himp : env.genai_importable <;>
            rcases hproj : pyFalsy env.google_cloud_project <;>
            rcases hw : w.googleList with e | models <;>
            simp [runProgram, specExitCode, hr, hm,
              list_vertexai_models, himp, hproj, hw]
      · simp [runProgram, specExitCode, hr]
  · intro hp hr
    constructor
    · simp [runProgram, hp, hr]
    · simp [runProgram, hp, hr]

/-- Witness for C3 (amended): the VertexAI-without-region invocation. -/
theorem C3_witness :
    (runProgram ⟨Provider.VertexAI, none⟩ envStd wStd).2 = 2 ∧
    regionRequiredMsg ∈
      errLines (runProgram ⟨Provider.VertexAI, none⟩ envStd wStd).1 :=
  (C3_exit_codes ⟨Provider.VertexAI, none⟩ envStd wStd).2 rfl rfl

/-- C4: with `--provider OpenAI` and `OPENAI_API_KEY` unset, the process
exits 1 printing exactly the missing-credential message, with no client
construction and no network call. -/
theorem C4_openai_missing_key (rg : Option String) (env : Env) (w : World)
    (himp : env.openai_importable = true)
    (hkey : env.openai_api_key = none) :
    (runProgram ⟨.OpenAI, rg⟩ env w).2 = 1 ∧
    outLines (runProgram ⟨.OpenAI, rg⟩ env w).1 =
      ["Error: OPENAI_API_KEY not set"] ∧
    netCalls (runProgram ⟨.OpenAI, rg⟩ env w).1 = 0 ∧
    constructs (runProgram ⟨.OpenAI, rg⟩ env w).1 = 0 := by
  rw [runProgram_openai]
  refine ⟨?_, ?_, ?_, ?_⟩ <;> simp [list_openai_models, pyFalsy, himp, hkey]

/-- Witness for C4. -/
theorem C4_witness :
    (runProgram ⟨.OpenAI, none⟩ envNoOpenAIKey wStd).2 = 1 ∧
    outLines (runProgram ⟨.OpenAI, none⟩ envNoOpenAIKey wStd).1 =
      ["Error: OPENAI_API_KEY not set"] ∧
    netCalls (runProgram ⟨.OpenAI, none⟩ envNoOpenAIKey wStd).1 = 0 ∧
    constructs (runProgram ⟨.OpenAI, none⟩ envNoOpenAIKey wStd).1 = 0 :=
  C4_openai_missing_key none envNoOpenAIKey wStd rfl rfl

/-- C5 counterexample: an Anthropic invocation with the credential unset
prints none of the known-model lines, so the output does not always
include the fixed list. -/
theorem C5_counterexample :
    ¬ ("Model: claude-3-5-sonnet-20241022" ∈
        outLines (runProgram ⟨Provider.Anthropic, none⟩ envNoAnthropicKey wStd).1) := by
  decide

/-- C5 (amended): with the anthropic package importable and
`ANTHROPIC_API_KEY` set to a non-empty value (Python-truthy), an Anthropic
invocation prints the whole fixed known-model list (one `Model: <id>` line
per entry), makes no network call, exits 0, and its entire behaviour is
independent of the network world. -/
theorem C5_anthropic_static (rg : Option String) (env : Env) (w w' : World)
    (himp : env.anthropic_importable = true)
    (hkey : pyFalsy env.anthropic_api_key = false) :
    (∀ m ∈ known_models,
      ("Model: " ++ m) ∈ outLines (runProgram ⟨.Anthropic, rg⟩ env w).1) ∧
    netCalls (runProgram ⟨.Anthropic, rg⟩ env w).1 = 0 ∧
    runProgram ⟨.Anthropic, rg⟩ env w = runProgram ⟨.Anthropic, rg⟩ env w' ∧
    (runProgram ⟨.Anthropic, rg⟩ env w).2 = 0 := by
  rw [runProgram_anthropic, runProgram_anthropic]
  refine ⟨?_, ?_, rfl, ?_⟩ <;> simp [list_anthropic_models, himp, hkey, known_models]

/-- Witness for C5 (amended), taking a world whose every network call
fails for the first run and a healthy world for the second. -/
theorem C5_witness :
    (∀ m ∈ known_models,
      ("Model: " ++ m) ∈
        outLines (runProgram ⟨.Anthropic, none⟩ envStd wGFail).1) ∧
    netCalls (runProgram ⟨.Anthropic, none⟩ envStd wGFail).1 = 0 ∧
    runProgram ⟨.Anthropic, none⟩ envStd wGFail =
      runProgram ⟨.Anthropic, none⟩ envStd wStd ∧
    (runProgram ⟨.Anthropic, none⟩ envStd wGFail).2 = 0 :=
  C5_anthropic_static none envStd wGFail wStd rfl rfl

/-- C6: whenever the live Google listing call raises (in either Google
adapter, its package importable and its credential/project Python-truthy),
the adapter prints the error as a message and then probes the five fixed
candidate Gemini names, printing for each exactly one of a WORKS label, a
NOT FOUND label (error containing `404`, or `not found`
case-insensitively), or an error snippet truncated to 100 characters. -/
theorem C6_gemini_fallback :
    (∀ (rg : Option String) (env : Env) (w : World) (e : String),
      env.genai_importable = true → pyFalsy env.google_api_key = false →
      w.googleList = .error e →
      outLines (runProgram ⟨.GoogleAI, rg⟩ env w).1 =
        ["Listing available Google AI Studio models (auto-routed region)...",
         sep80, "Error listing models: " ++ e, "",
         "Trying alternative approach..."] ++
          test_models.map (fun n =>
            match w.geminiProbe n with
            | none => "✓ " ++ n ++ " - WORKS"
            | some msg =>
              if strContains msg "404" || strContains (pyToLower msg) "not found" then
                "✗ " ++ n ++ " - NOT FOUND"
              else "? " ++ n ++ " - Error: " ++ pyTake msg 100)) ∧
    (∀ (env : Env) (w : World) (e p r : String),
      env.genai_importable = true → env.google_cloud_project = some p →
      pyIsEmpty p = false →
      pyIsEmpty r = false → regionMatch r = true →
      w.googleList = .error e →
      outLines (runProgram ⟨.VertexAI, some r⟩ env w).1 =
        ["Listing available Vertex AI models (project: " ++ p ++
           ", region: " ++ r ++ ")...",
         sep80, "Error listing models: " ++ e, "",
         "Trying alternative approach..."] ++
          test_models.map (fun n =>
            match w.geminiProbe n with
            | none => "✓ " ++ n ++ " - WORKS"
            | some msg =>
              if strContains msg "404" || strContains (pyToLower msg) "not found" then
                "✗ " ++ n ++ " - NOT FOUND"
              else "? " ++ n ++ " - Error: " ++ pyTake msg 100)) := by
  constructor
  · intro rg env w e himp hkey herr
    rw [runProgram_googleai]
    simp [list_googleai_models, himp, hkey, herr,
      try_known_gemini_models, test_models]
  · intro env w e p r himp hproj hpne hne hm herr
    rw [runProgram_vertexai r env w hne hm]
    simp [list_vertexai_models, himp, hproj, pyFalsy, hpne, herr,
      try_known_gemini_models, test_models]

/-- Witness for C6 on a concrete failing world exercising all three probe
labels (success, 404 / case-insensitive not-found, other error). -/
theorem C6_witness :
    outLines (runProgram ⟨Provider.GoogleAI, none⟩ envStd wGFail).1 =
      ["Listing available Google AI Studio models (auto-routed region)...",
       sep80, "Error listing models: 503 UNAVAILABLE", "",
       "Trying alternative approach...",
       "? gemini-3.0-pro - Error: quota exceeded",
       "✗ gemini-2.5-pro - NOT FOUND",
       "? gemini-2.0-flash-exp - Error: quota exceeded",
       "✓ gemini-1.5-pro - WORKS",
       "✗ gemini-1.5-flash - NOT FOUND"] := by
  have h := C6_gemini_fallback.1 none envStd wGFail "503 UNAVAILABLE"
    rfl rfl rfl
  rw [h]
  decide

/-- C7 counterexample: a GoogleAI invocation whose listing call fails makes
six network calls (the listing call plus five probe calls), refuting the
claim that no execution path performs more than one network call. -/
theorem C7_counterexample :
    ¬ (netCalls (runProgram ⟨Provider.GoogleAI, none⟩ envStd wGFail).1 ≤ 1) ∧
    netCalls (runProgram ⟨Provider.GoogleAI, none⟩ envStd wGFail).1 = 6 := by
  decide

/-- C7 (amended): every invocation makes at most one listing call; probe
calls happen only for the Google providers (in the fallback), and the
total number of network calls never exceeds six (one listing plus five
probes). -/
theorem C7_network_calls (args : Args) (env : Env) (w : World) :
    listingCalls (runProgram args env w).1 ≤ 1 ∧
    netCalls (runProgram args env w).1 ≤ 6 ∧
    (probeCalls (runProgram args env w).1 ≠ 0 →
      args.provider = Provider.GoogleAI ∨
        args.provider = Provider.VertexAI) := by
  obtain ⟨p, rg⟩ := args
  cases p
  case OpenAI =>
    rw [runProgram_openai]
    exact ⟨(list_openai_models_calls env w).1, (list_openai_models_calls env w).2.1,
      fun h => absurd (list_openai_models_calls env w).2.2 h⟩
  case GoogleAI =>
    rw [runProgram_googleai]
    exact ⟨(list_googleai_models_calls env w).1, (list_googleai_models_calls env w).2,
      fun _ => Or.inl rfl⟩
  case Anthropic =>
    rw [runProgram_anthropic]
    exact ⟨(list_anthropic_models_calls env).1, (list_anthropic_models_calls env).2.1,
      fun h => absurd (list_anthropic_models_calls env).2.2 h⟩
  case xAI =>
    rw [runProgram_xai]
    exact ⟨(list_xai_models_calls env w).1, (list_xai_models_calls env w).2.1,
      fun h => absurd (list_xai_models_calls env w).2.2 h⟩
  case VertexAI =>
    unfold runProgram
    split
    · simp
    · split
      · simp
      · exact ⟨(list_vertexai_models_calls env w _).1,
          (list_vertexai_models_calls env w _).2, fun _ => Or.inr rfl⟩

/-- Witness for C7 (amended): the probe-call implication fires on the
failing GoogleAI run. -/
theorem C7_witness :
    (⟨Provider.GoogleAI, none⟩ : Args).provider = Provider.GoogleAI ∨
      (⟨Provider.GoogleAI, none⟩ : Args).provider = Provider.VertexAI :=
  (C7_network_calls ⟨Provider.GoogleAI, none⟩ envStd wGFail).2.2 (by decide)

/-- C8: an Anthropic invocation with the anthropic package missing or the
credential unset exits 1 and prints a single error line — in particular no
`Model:` lines — even though the adapter never makes a live call. -/
theorem C8_anthropic_gate (rg : Option String) (env : Env) (w : World)
    (h : env.anthropic_importable = false ∨ env.anthropic_api_key = none) :
    (runProgram ⟨.Anthropic, rg⟩ env w).2 = 1 ∧
    (outLines (runProgram ⟨.Anthropic, rg⟩ env w).1 =
        ["Error: anthropic package not installed. Install with: pip install anthropic"] ∨
      outLines (runProgram ⟨.Anthropic, rg⟩ env w).1 =
        ["Error: ANTHROPIC_API_KEY not set"]) ∧
    netCalls (runProgram ⟨.Anthropic, rg⟩ env w).1 = 0 := by
  rw [runProgram_anthropic]
  rcases h with h | h
  · simp [list_anthropic_models, h]
  · rcases himp : env.anthropic_importable <;>
      simp [list_anthropic_models, pyFalsy, himp, h]

/-- Witness for C8 at the unset-credential environment. -/
theorem C8_witness :
    (runProgram ⟨.Anthropic, none⟩ envNoAnthropicKey wStd).2 = 1 ∧
    (outLines (runProgram ⟨.Anthropic, none⟩ envNoAnthropicKey wStd).1 =
        ["Error: anthropic package not installed. Install with: pip install anthropic"] ∨
      outLines (runProgram ⟨.Anthropic, none⟩ envNoAnthropicKey wStd).1 =
        ["Error: ANTHROPIC_API_KEY not set"]) ∧
    netCalls (runProgram ⟨.Anthropic, none⟩ envNoAnthropicKey wStd).1 = 0 :=
  C8_anthropic_gate none envNoAnthropicKey wStd (Or.inr rfl)

/-- C9: for every xAI listing response (with the openai package importable
and `XAI_API_KEY` Python-truthy), the adapter prints every returned
identifier in the provider-given order — no fine-tune filtering and no
sorting — and exits 0. -/
theorem C9_xai_order (rg : Option String) (env : Env) (w : World)
    (ids : List String)
    (himp : env.openai_importable = true)
    (hkey : pyFalsy env.xai_api_key = false)
    (hw : w.xaiList = .ok ids) :
    outLines (runProgram ⟨.xAI, rg⟩ env w).1 =
      ["Listing available xAI models (NOTE: xAI uses aliases, so grok-4 is an acceptable API name, resolving to grok-4-0709 as of Nov. 2025)...",
       sep80] ++ ids.map (fun i => "Model: " ++ i) ∧
    (runProgram ⟨.xAI, rg⟩ env w).2 = 0 := by
  rw [runProgram_xai]
  constructor <;> simp [list_xai_models, himp, hkey, hw]

/-- Witness for C9 on an unsorted listing that includes an `ft:` entry:
the output keeps the provider order and the fine-tune entry. -/
theorem C9_witness :
    outLines (runProgram ⟨.xAI, none⟩ envStd wC9).1 =
      ["Listing available xAI models (NOTE: xAI uses aliases, so grok-4 is an acceptable API name, resolving to grok-4-0709 as of Nov. 2025)...",
       sep80, "Model: grok-beta", "Model: ft:custom", "Model: grok-2",
       "Model: aardvark"] := by
  have h := (C9_xai_order none envStd wC9
    ["grok-beta", "ft:custom", "grok-2", "aardvark"] rfl rfl rfl).1
  rw [h]
  decide

/-- C10: for every provider other than VertexAI, the whole run (output,
events and exit code) is identical whatever the `--region` argument is —
it is never validated and never used. -/
theorem C10_region_ignored (p : Provider) (env : Env) (w : World)
    (r r' : Option String) (hp : p ≠ Provider.VertexAI) :
    runProgram ⟨p, r⟩ env w = runProgram ⟨p, r'⟩ env w := by
  cases p
  case VertexAI => exact absurd rfl hp
  all_goals simp [runProgram]

/-- Witness for C10: a malformed region and an absent region give the same
OpenAI run. -/
theorem C10_witness :
    runProgram ⟨Provider.OpenAI, some "!!not-a-region!!"⟩ envStd wC1 =
      runProgram ⟨Provider.OpenAI, none⟩ envStd wC1 :=
  C10_region_ignored Provider.OpenAI envStd wC1 (some "!!not-a-region!!") none
    (by decide)

end LlmModels
